import Mathlib

/-!
Network configuration resolution (package `config`).

A shallow embedding of `config/types.go` and `config/networks.go`:
the `Network` record and its `Validate` method, the static registry of
networks, the lookup by environment name, the source selector
`NetworkConfigForGivenInput` and the remote fetcher `downloadConfigFile`.

Conventions of the embedding
* a Go `string` is a Lean `String`; `len(s)` is the UTF-8 byte size;
* a Go slice is a `List`; `len(xs)` is `List.length`;
* a Go `error` is `Option GoError`, `nil` being `none`;
* a Go `*Network` is `Option Network`, `nil` being `none`;
* `fmt.Errorf` builds a `GoError`; a trailing `%w` verb keeps the cause.
-/

namespace config

/-! ## Errors -/

/-- A Go error value as built by `fmt.Errorf`: either a plain message, or a
message text followed by a wrapped cause (the `%w` verb closing the format). -/
inductive GoError where
  | errorf (msg : String) : GoError
  | wrap (msg : String) (cause : GoError) : GoError
  deriving DecidableEq, Repr

/-- The method `Error()` of an error: its full message. -/
def GoError.Error : GoError → String
  | .errorf msg => msg
  | .wrap msg cause => msg ++ cause.Error

/-- The method `Unwrap()` of an error: the cause it wraps, if any. -/
def GoError.Unwrap : GoError → Option GoError
  | .errorf _ => none
  | .wrap _ cause => some cause

/-! ## Strings -/

/-- The builtin `len` on a Go string: its number of bytes. -/
def len (s : String) : Nat := s.utf8ByteSize

/-- Whether the characters `sub` occur as a contiguous block in `s`. -/
def containsChars : List Char → List Char → Bool
  | [], sub => sub.isEmpty
  | c :: cs, sub => sub.isPrefixOf (c :: cs) || containsChars cs sub

/-- The function `strings.Contains(s, substr)`. -/
def stringsContains (s substr : String) : Bool :=
  containsChars s.data substr.data

/-! ## types.go -/

/-- The struct `EndpointWithREST`. -/
structure EndpointWithREST where
  CoreREST : String
  Endpoint : String
  deriving DecidableEq, Repr

/-- The struct `Network`. -/
structure Network where
  ArtifactsRepository : String
  GenesisURL : String
  BinaryVersionOverride : String := ""
  DataNodesREST : List String
  RPCPeers : List EndpointWithREST
  Seeds : List String
  BootstrapPeers : List EndpointWithREST
  deriving DecidableEq, Repr

/-- The method `Network.Validate`: six emptiness checks, in source order,
returning at the first one that fails. -/
def Network.Validate (n : Network) : Option GoError :=
  if n.DataNodesREST.length == 0 then
    some (.errorf "no data nodes rest endpoints")
  else if n.BootstrapPeers.length == 0 then
    some (.errorf "no bootstrap peers")
  else if n.RPCPeers.length == 0 then
    some (.errorf "no rpc peers")
  else if n.Seeds.length == 0 then
    some (.errorf "no seeds")
  else if len n.GenesisURL == 0 then
    some (.errorf "no genesis url")
  else if len n.ArtifactsRepository == 0 then
    some (.errorf "empty artifacts repository")
  else
    none

/-! ## networks.go: names and registry -/

/-- The constant `NetworkNameNebula`. -/
def NetworkNameNebula : String := "nebula"
/-- The constant `NetworkNameMainnet`. -/
def NetworkNameMainnet : String := "mainnet"
/-- The constant `NetworkNameFairground`. -/
def NetworkNameFairground : String := "fairground"
/-- The constant `NetworkNameStagnet1`. -/
def NetworkNameStagnet1 : String := "stagnet1"
/-- The constant `NetworkNameDevnet1`. -/
def NetworkNameDevnet1 : String := "devnet1"
/-- The constant `NetworkMainnetMirror`. -/
def NetworkMainnetMirror : String := "mainnet-mirror"
/-- The constant `NetworkMainnetMirrorAlt`. -/
def NetworkMainnetMirrorAlt : String := "mirror"
/-- The constant `NetworkValidatorTestnet`. -/
def NetworkValidatorTestnet : String := "validator-testnet"
/-- The constant `NetworkValidatorsTestnet`. -/
def NetworkValidatorsTestnet : String := "validators-testnet"

/-- The registry entry `Mainnet`. -/
def Mainnet : Network where
  ArtifactsRepository := "vegaprotocol/vega"
  GenesisURL := "https://raw.githubusercontent.com/vegaprotocol/networks/master/mainnet1/genesis.json"
  DataNodesREST := [
    "https://api0.vega.community",
    "https://api1.vega.community",
    "https://api2.vega.community",
    "https://api3.vega.community"
  ]
  RPCPeers := [
    ⟨"https://api1.vega.community", "api1.vega.community:26657"⟩,
    ⟨"https://api2.vega.community", "api2.vega.community:26657"⟩,
    ⟨"https://api3.vega.community", "api3.vega.community:26657"⟩,
    ⟨"https://be0.vega.community", "be0.vega.community:26657"⟩,
    ⟨"https://be1.vega.community", "be1.vega.community:26657"⟩,
    ⟨"https://be3.vega.community", "be3.vega.community:26657"⟩
  ]
  Seeds := [
    "b0db58f5651c85385f588bd5238b42bedbe57073@13.125.55.240:26656",
    "abe207dae9367995526812d42207aeab73fd6418@18.158.4.175:26656",
    "198ecd046ebb9da0fc5a3270ee9a1aeef57a76ff@144.76.105.240:26656",
    "211e435c2162aedb6d687409d5d7f67399d198a9@65.21.60.252:26656",
    "c5b11e1d819115c4f3974d14f76269e802f3417b@34.88.191.54:26656",
    "61051c21f083ee30c835a34a0c17c5d1ceef3c62@51.178.75.45:26656",
    "b0db58f5651c85385f588bd5238b42bedbe57073@18.192.52.234:26656",
    "36a2ca7bb6a50427be2181c8ebb7f62ac62ebaf5@m2.vega.community:26656",
    "9903c02a0ff881dc369fc7daccb22c1f9680d2dd@api0.vega.community:26656",
    "9903c02a0ff881dc369fc7daccb22c1f9680d2dd@api0.vega.community:26656",
    "32d7380b195c088c0605c5d24bcf15ff1dade05f@api1.vega.community:26656",
    "4f26ec99d3cf6f0e9e973c0a5f3da87d89ec6677@api2.vega.community:26656",
    "eafacd11af53cd9fb2a14eada53485779cbee4ab@api3.vega.community:26656",
    "9de3ca2bbeb62d165d39acbbcf174e7ac3a6b7c9@be3.vega.community:26656"
  ]
  BootstrapPeers := [
    ⟨"https://api0.vega.community", "/dns/api0.vega.community/tcp/4001/ipfs/12D3KooWAHkKJfX7rt1pAuGebP9g2BGTT5w7peFGyWd2QbpyZwaw"⟩,
    ⟨"https://api1.vega.community", "/dns/api1.vega.community/tcp/4001/ipfs/12D3KooWDZrusS1p2XyJDbCaWkVDCk2wJaKi6tNb4bjgSHo9yi5Q"⟩,
    ⟨"https://api2.vega.community", "/dns/api2.vega.community/tcp/4001/ipfs/12D3KooWEH9pQd6P7RgNEpwbRyavWcwrAdiy9etivXqQZzd7Jkrh"⟩,
    ⟨"https://api3.vega.community", "/dns/api3.vega.community/tcp/4001/ipfs/12D3KooWHSoYzEqSfUWEXfFbSnmRhWcP2WgZG2GRT8fzZzio5BTY"⟩
  ]

/-- The registry entry `Fairground`. -/
def Fairground : Network where
  ArtifactsRepository := "vegaprotocol/vega"
  GenesisURL := "https://raw.githubusercontent.com/vegaprotocol/networks-internal/main/fairground/genesis.json"
  DataNodesREST := [
    "https://api.n00.testnet.vega.rocks",
    "https://api.n06.testnet.vega.rocks",
    "https://api.n07.testnet.vega.rocks"
  ]
  RPCPeers := [
    ⟨"https://n00.testnet.vega.rocks/", "n00.testnet.vega.rocks:26657"⟩,
    ⟨"https://n01.testnet.vega.rocks/", "n01.testnet.vega.rocks:26657"⟩,
    ⟨"https://n02.testnet.vega.rocks/", "n02.testnet.vega.rocks:26657"⟩,
    ⟨"https://n03.testnet.vega.rocks/", "n03.testnet.vega.rocks:26657"⟩,
    ⟨"https://n04.testnet.vega.rocks/", "n04.testnet.vega.rocks:26657"⟩,
    ⟨"https://n05.testnet.vega.rocks/", "n05.testnet.vega.rocks:26657"⟩,
    ⟨"https://n06.testnet.vega.rocks/", "n06.testnet.vega.rocks:26657"⟩,
    ⟨"https://n07.testnet.vega.rocks/", "n07.testnet.vega.rocks:26657"⟩
  ]
  Seeds := [
    "e1e741234f05d1067c73457c87420f68994f5acd@be.testnet.vega.rocks:26656",
    "5f6c6fbc805b2c1be8292f836ffdaeee4754695a@n00.testnet.vega.rocks:26656",
    "7274e41e52752991c0ddff1abeb094dd672e5016@n01.testnet.vega.rocks:26656",
    "90d1ab24a3fcb6eee7193f8dc3fc70f08c8dadda@n02.testnet.vega.rocks:26656",
    "fc1559208ba5a6f1e521a1d149554f1adf8782fe@n03.testnet.vega.rocks:26656",
    "d23735e467f834328cde0c371e052efbefa14791@n04.testnet.vega.rocks:26656",
    "f76cc3679e5341537d4c9abd16dd682b0d65ca84@n05.testnet.vega.rocks:26656",
    "029aeae69c4620092097de72d41caf603f54ad54@n06.testnet.vega.rocks:26656",
    "13fa1c91ca159af72a163187d72dd0c3b84df603@n07.testnet.vega.rocks:26656"
  ]
  BootstrapPeers := [
    ⟨"https://n00.testnet.vega.rocks", "/dns/n00.testnet.vega.rocks/tcp/4001/ipfs/12D3KooWBL6aFCBT4h8dod679QZpRuwUxizY9AERGFaVoULp8D78"⟩,
    ⟨"https://n06.testnet.vega.rocks", "/dns/n06.testnet.vega.rocks/tcp/4001/ipfs/12D3KooWBqYJfevTSESGabA7uPxxiAPjeiYiiRQAdw3LzMNjUUjM"⟩,
    ⟨"https://n07.testnet.vega.rocks", "/dns/n07.testnet.vega.rocks/tcp/4001/ipfs/12D3KooWMQ5o7wRDMpjgiGhbKwB6Tg3h4Hu8XQGZxBeS7nZEQjeC"⟩
  ]

/-- The registry entry `Stagnet1`. -/
def Stagnet1 : Network where
  ArtifactsRepository := "vegaprotocol/vega"
  GenesisURL := "https://raw.githubusercontent.com/vegaprotocol/networks-internal/main/stagnet1/genesis.json"
  DataNodesREST := [
    "https://api.n00.stagnet1.vega.rocks",
    "https://api.n05.stagnet1.vega.rocks"
  ]
  RPCPeers := [
    ⟨"https://be.stagnet1.vega.rocks", "be.stagnet1.vega.rocks:26657"⟩,
    ⟨"https://n00.stagnet1.vega.rocks", "n00.stagnet1.vega.rocks:26657"⟩,
    ⟨"https://n01.stagnet1.vega.rocks", "n01.stagnet1.vega.rocks:26657"⟩,
    ⟨"https://n02.stagnet1.vega.rocks", "n02.stagnet1.vega.rocks:26657"⟩,
    ⟨"https://n03.stagnet1.vega.rocks", "n03.stagnet1.vega.rocks:26657"⟩,
    ⟨"https://n04.stagnet1.vega.rocks", "n04.stagnet1.vega.rocks:26657"⟩,
    ⟨"https://n05.stagnet1.vega.rocks", "n05.stagnet1.vega.rocks:26657"⟩
  ]
  Seeds := [
    "ccdaddd1099c3338f79d732e4b4d75514d8805d9@be.stagnet1.vega.rocks:26656",
    "71a8538c31b8311034eb01d1ec2511f477e62144@n00.stagnet1.vega.rocks:26656",
    "0215d9af2bab228218d1cf4376d4fa4efc0d1dc8@n01.stagnet1.vega.rocks:26656",
    "1ea3d6b578d9f186ab0bc087ae114be1eb6862fe@n02.stagnet1.vega.rocks:26656",
    "bea26a4a9776c7d0e41a33c574e4bd5b9256d0c9@n03.stagnet1.vega.rocks:26656",
    "3b739f5847a0abff3b86b5240ba46f5b6b9673a9@n04.stagnet1.vega.rocks:26656",
    "9131eef85b12b0ac37bb1e4a934ff18ca7461edc@n05.stagnet1.vega.rocks:26656"
  ]
  BootstrapPeers := [
    ⟨"https://n00.stagnet1.vega.rocks", "/dns/n00.stagnet1.vega.rocks/tcp/4001/ipfs/12D3KooWP8YaH8ohx44bGyXWxas6wqiCn1cFRidxR3yPrFVd3ZjP"⟩,
    ⟨"https://n05.stagnet1.vega.rocks", "/dns/n05.stagnet1.vega.rocks/tcp/4001/ipfs/12D3KooWAzYpdr3oeXaQ1CWmFystwi7M2pLrPLpRvD2E1XzjSjHG"⟩
  ]

/-- The registry entry `Devnet1`. -/
def Devnet1 : Network where
  ArtifactsRepository := "vegaprotocol/vega-dev-releases"
  GenesisURL := "https://raw.githubusercontent.com/vegaprotocol/networks-internal/main/devnet1/genesis.json"
  DataNodesREST := [
    "https://api.n00.devnet1.vega.rocks",
    "https://api.n06.devnet1.vega.rocks",
    "https://api.n07.devnet1.vega.rocks"
  ]
  RPCPeers := [
    ⟨"https://n00.devnet1.vega.rocks", "n00.devnet1.vega.rocks:26657"⟩,
    ⟨"https://n01.devnet1.vega.rocks", "n01.devnet1.vega.rocks:26657"⟩,
    ⟨"https://n02.devnet1.vega.rocks", "n02.devnet1.vega.rocks:26657"⟩,
    ⟨"https://n03.devnet1.vega.rocks", "n03.devnet1.vega.rocks:26657"⟩,
    ⟨"https://n04.devnet1.vega.rocks", "n04.devnet1.vega.rocks:26657"⟩,
    ⟨"https://n05.devnet1.vega.rocks", "n05.devnet1.vega.rocks:26657"⟩,
    ⟨"https://n06.devnet1.vega.rocks", "n06.devnet1.vega.rocks:26657"⟩
  ]
  Seeds := [
    "a0928bc929506560c66f5ae4fa2f73df3ed8aab8@n01.devnet1.vega.rocks:26656",
    "0c0f1575d159ed02ac05670c333593b2deb4d57e@n02.devnet1.vega.rocks:26656",
    "091cb0675d0f59305d6b72072fe423206bf17048@n03.devnet1.vega.rocks:26656",
    "e475c424a3f20313f5b0911a06b438c850b89066@n04.devnet1.vega.rocks:26656",
    "7f2b12134155929f70ef162a58a8ad5c289eacde@n05.devnet1.vega.rocks:26656"
  ]
  BootstrapPeers := [
    ⟨"https://n00.devnet1.vega.rocks", "/dns/n00.devnet1.vega.rocks/tcp/4001/ipfs/12D3KooWBsVeEhCjG2djhpwexZWb76Afd7Nh6gUfpxNBr61KKojj"⟩,
    ⟨"https://n06.devnet1.vega.rocks", "/dns/n06.devnet1.vega.rocks/tcp/4001/ipfs/12D3KooWEbFqpQc2srFtrPcYK5t1e8mfouDutyzwW3XBEPhqYrLi"⟩,
    ⟨"https://n07.devnet1.vega.rocks", "/dns/n07.devnet1.vega.rocks/tcp/4001/ipfs/12D3KooWSjnLDRMwrNxWqyyzkWCkiP7JaHpKkgbNGpo8fWWfkXoy"⟩
  ]

/-- The registry entry `MainnetMirror`. -/
def MainnetMirror : Network where
  ArtifactsRepository := "vegaprotocol/vega"
  GenesisURL := "https://raw.githubusercontent.com/vegaprotocol/networks-internal/main/mainnet-mirror/genesis.json"
  DataNodesREST := [
    "https://api.n00.mainnet-mirror.vega.rocks",
    "https://api.n06.mainnet-mirror.vega.rocks"
  ]
  RPCPeers := [
    ⟨"https://n00.mainnet-mirror.vega.rocks", "n00.mainnet-mirror.vega.rocks:26657"⟩,
    ⟨"https://n01.mainnet-mirror.vega.rocks", "n01.mainnet-mirror.vega.rocks:26657"⟩,
    ⟨"https://n02.mainnet-mirror.vega.rocks", "n02.mainnet-mirror.vega.rocks:26657"⟩,
    ⟨"https://n03.mainnet-mirror.vega.rocks", "n03.mainnet-mirror.vega.rocks:26657"⟩,
    ⟨"https://n04.mainnet-mirror.vega.rocks", "n04.mainnet-mirror.vega.rocks:26657"⟩,
    ⟨"https://n05.mainnet-mirror.vega.rocks", "n05.mainnet-mirror.vega.rocks:26657"⟩,
    ⟨"https://n06.mainnet-mirror.vega.rocks", "n06.mainnet-mirror.vega.rocks:26657"⟩
  ]
  Seeds := [
    "6b4d261bfbf198e8d7c09fd514f3a0dcd4257e99@n01.mainnet-mirror.vega.rocks:26656",
    "bed5110d707cf760bdb6ab0ef0ddecddef8a1c34@n02.mainnet-mirror.vega.rocks:26656",
    "0fef54f45d60ec194117346910c3f65e88989733@n03.mainnet-mirror.vega.rocks:26656",
    "49e3520fa334106893294d0cfe685a01b7e6f8a9@n04.mainnet-mirror.vega.rocks:26656",
    "23313341785e9a43de0fabba9fc16fe21746350d@n05.mainnet-mirror.vega.rocks:26656"
  ]
  BootstrapPeers := [
    ⟨"https://n00.mainnet-mirror.vega.rocks", "/dns/n00.mainnet-mirror.vega.rocks/tcp/4001/ipfs/12D3KooWLTtXvPevvqe2588ZEMDzy7tUmP8JwRZwDs2TNQYQwdyt"⟩,
    ⟨"https://n06.mainnet-mirror.vega.rocks", "/dns/n06.mainnet-mirror.vega.rocks/tcp/4001/ipfs/12D3KooWPgpoSABsN5zH9JzLAmnWMJyA7tycHTp7K1q3nRnm5c2A"⟩
  ]

/-- The registry entry `ValidatorsTestnet`. -/
def ValidatorsTestnet : Network where
  ArtifactsRepository := "vegaprotocol/vega"
  GenesisURL := "https://raw.githubusercontent.com/vegaprotocol/networks/master/testnet2/genesis.json"
  DataNodesREST := [
    "https://api.n00.validators-testnet.vega.rocks",
    "https://api.n02.validators-testnet.vega.rocks",
    "https://api.metabase00.validators-testnet.vega.rocks"
  ]
  RPCPeers := [
    ⟨"https://n00.validators-testnet.vega.rocks", "n00.validators-testnet.vega.rocks:26657"⟩,
    ⟨"https://n01.validators-testnet.vega.rocks", "n01.validators-testnet.vega.rocks:26657"⟩,
    ⟨"https://n02.validators-testnet.vega.rocks", "n02.validators-testnet.vega.rocks:26657"⟩,
    ⟨"https://metabase00.validators-testnet.vega.rocks", "metabase00.validators-testnet.vega.rocks:26657"⟩
  ]
  Seeds := [
    "fdd97c9dba30ad45d24bee19503ba164378e7676@65.108.77.179:26656",
    "b167d445d103864cc43b8685a5b559c43d7874c2@sn011.validators-testnet.vega.rocks:40116",
    "8d56e01212501d839ab385487347f4b3110f0b29@sn010.validators-testnet.vega.rocks:40106",
    "19ff93fb93e9d1b275cc395b228afba5161abb69@34.88.143.93:26656",
    "bdd14fe2b171deae3850a8022ea672e4b031e61b@146.59.55.53:36656",
    "71b74583f666d14b9422bf76bcc0967da2b8ea1e@5.9.95.147:26656",
    "03d7b7153e33f3109b61854ed4f07da3048479a8@34.88.143.93:26656",
    "bcde8a5e531d2bddf6562b00c868edec6131cbc6@n02.validators-testnet.vega.rocks:26656",
    "5729b2e5f4612718e7bb8fb13293cbcf9e29e745@5.181.190.159:26656",
    "4a848271a1f689f5bea1a6d0634b3ee2ab8879df@metabase00.validators-testnet.vega.xyz:26656",
    "dcd7690daeb1d07c606c3f373db8202f4a96e866@34.88.143.93:26656",
    "16f5f15024530f4a2d966e13bc81d3aaa536f726@54.234.87.229:26656",
    "a07c6df1f34a15db414d8c7de88ac2b4045b53f1@be.validators-testnet.vega.xyz:26656",
    "96cd04a559a06503812388856b0fda3130f2cd83@141.95.97.28:26656",
    "51ffb62faac4256dcae01a4c46c2623a1c19ad1d@51.75.145.104:16456",
    "66a2375c146cf85dd6f0b3c54c337d799225e5db@65.108.57.71:26656",
    "53df354f81d9330500c3a36163434813f7bcbd05@85.207.33.71:26656",
    "b180c59bc8299fa513ea101d257724c87a2e160b@65.21.151.106:26656"
  ]
  BootstrapPeers := [
    ⟨"https://n00.validators-testnet.vega.rocks", "/dns/n00.validators-testnet.vega.rocks/tcp/4001/ipfs/12D3KooWQbCMy5echT1sMKwRQh8GJJk5zmHmg6VNg1qEbpysNACN"⟩,
    ⟨"https://n02.validators-testnet.vega.rocks", "/dns/n02.validators-testnet.vega.rocks/tcp/4001/ipfs/12D3KooWHffX2tdw2phH7ai8GCo2K3ehJfnLRATve5otVr4D3ggK"⟩,
    ⟨"https://metabase00.validators-testnet.vega.rocks", "/dns/metabase00.validators-testnet.vega.rocks/tcp/4001/ipfs/12D3KooWKPDZ1s5FM8YewZVeRb9XwaQ7PdaoyD84hFnKmVbn94gN"⟩
  ]

/-- The function `networkConfigForEnvironmentName`: the `switch` over the
environment name, its cases tried from top to bottom, and the error return
after it. The pair is the Go result `(*Network, error)`. -/
def networkConfigForEnvironmentName (envName : String) : Option Network × Option GoError :=
  if envName == NetworkNameMainnet then
    (some Mainnet, none)
  else if envName == NetworkMainnetMirror || envName == NetworkMainnetMirrorAlt then
    (some MainnetMirror, none)
  else if envName == NetworkValidatorTestnet || envName == NetworkValidatorsTestnet then
    (some ValidatorsTestnet, none)
  else if envName == NetworkNameFairground then
    (some Fairground, none)
  else if envName == NetworkNameStagnet1 then
    (some Stagnet1, none)
  else if envName == NetworkNameDevnet1 then
    (some Devnet1, none)
  else
    (none, some (.errorf
      ("unknown network name: expected one of [mainnet, fairground, stagnet1, devnet1], "
        ++ envName ++ " got")))

/-- The names the specification lists as recognized, aliases included. -/
def recognizedNames : List String :=
  ["mainnet", "mainnet-mirror", "mirror", "validator-testnet", "validators-testnet",
   "fairground", "stagnet1", "devnet1"]

/-! ## networks.go: the source selector -/

/-- The function `strings.HasPrefix(s, p)`. -/
def stringsHasPrefix (s p : String) : Bool :=
  p.data.isPrefixOf s.data

/-- The function `NetworkConfigForGivenInput`, over any state `σ` of the
outside world, with `downloadConfigFile` and `loadConfigFromLocalFile` taken
as the parameters `download` and `load`. The body follows the source: an
early return for the empty path, then the reassigned `configPath` and `err`. -/
def NetworkConfigForGivenInput {σ : Type}
    (download : String → String → StateM σ (String × Option GoError))
    (load : String → StateM σ (Option Network × Option GoError))
    (envName configPath workDir : String) :
    StateM σ (Option Network × Option GoError) := do
  if configPath == "" then
    return networkConfigForEnvironmentName envName
  let mut configPath := configPath
  let mut err : Option GoError := none
  if stringsHasPrefix configPath "http" then
    (configPath, err) ← download configPath workDir
    if let some cause := err then
      return (none, some (.wrap "failed to config download file: " cause))
  load configPath

/-- The source selector as the specification words it, a three-way dispatch:
the named lookup when the path is empty, leaving the world as it is; fetch
then parse when the path begins with "http", the parse skipped and the fetch
error wrapped when the fetch fails; parse of the path otherwise. -/
def resolveSpec {σ : Type}
    (fetch : String → String → σ → (String × Option GoError) × σ)
    (parse : String → σ → (Option Network × Option GoError) × σ)
    (environmentName configPathOrUrl workDir : String) (w : σ) :
    (Option Network × Option GoError) × σ :=
  if configPathOrUrl = "" then
    (networkConfigForEnvironmentName environmentName, w)
  else if stringsHasPrefix configPathOrUrl "http" then
    match fetch configPathOrUrl workDir w with
    | ((localPath, none), w1) => parse localPath w1
    | ((_, some cause), w1) =>
      ((none, some (.wrap "failed to config download file: " cause)), w1)
  else
    parse configPathOrUrl w

/-! ## networks.go: the remote fetcher -/

/-- The part of `http.Response` the fetcher reads. -/
structure Response where
  StatusCode : Int
  Body : String
  deriving DecidableEq, Repr

/-- An interaction of the fetcher with the operating system or the network. -/
inductive Event where
  | Create (path : String) : Event
  | Get (uri : String) : Event
  | Write (path : String) (data : String) : Event
  | CloseBody (uri : String) : Event
  | CloseFile (path : String) : Event
  deriving DecidableEq, Repr

/-- The world outside the program: the content of each file (`none` where
there is no file) and the interactions so far, oldest first. -/
structure World where
  files : String → Option String
  trace : List Event

/-- The behaviour of the library calls the fetcher makes, which the source
does not fix: the path `filepath.Join` builds, whether `os.Create` fails on a
path, what `http.Get` yields for a URL (a transport error or a response), and
whether `io.Copy` of a body fails, after how many characters. -/
structure Env where
  Join : String → String → String
  createErr : String → Option GoError
  get : String → Except GoError Response
  copyErr : String → Option (Nat × GoError)

/-- The constant `http.StatusOK`. -/
def StatusOK : Int := 200

/-- The verb `%d` of `fmt` on an `int`: decimal digits, a minus sign first for
a negative number. -/
def fmtD : Int → String
  | .ofNat n => Nat.repr n
  | .negSucc n => "-" ++ Nat.repr (n + 1)

/-- The call `os.Create(path)`: on failure the error and nothing else; on
success the file exists and is empty, whatever it held before. -/
def osCreate (env : Env) (path : String) : StateM World (Option GoError) :=
  fun w =>
    match env.createErr path with
    | some err => (some err, { w with trace := w.trace ++ [.Create path] })
    | none =>
      (none, { files := fun p => if p = path then some "" else w.files p,
               trace := w.trace ++ [.Create path] })

/-- The call `http.Get(uri)`. -/
def httpGet (env : Env) (uri : String) : StateM World (Except GoError Response) :=
  fun w => (env.get uri, { w with trace := w.trace ++ [.Get uri] })

/-- The call `io.Copy(out, body)` on the file at `path`: the body, or on
failure its first characters, is appended to the file. -/
def ioCopy (env : Env) (path : String) (body : String) : StateM World (Option GoError) :=
  fun w =>
    let written : String :=
      match env.copyErr body with
      | some (k, _) => String.mk (body.data.take k)
      | none => body
    (Option.map Prod.snd (env.copyErr body),
     { files := fun p => if p = path then (w.files p).map (fun old => old ++ written)
                         else w.files p,
       trace := w.trace ++ [.Write path written] })

/-- The deferred call `out.Close()`. -/
def closeFile (path : String) : StateM World Unit :=
  fun w => ((), { w with trace := w.trace ++ [.CloseFile path] })

/-- The deferred call `resp.Body.Close()`. -/
def closeBody (uri : String) : StateM World Unit :=
  fun w => ((), { w with trace := w.trace ++ [.CloseBody uri] })

/-- The function `downloadConfigFile`. Each `defer` runs when the block that
follows it is left, the later one first. -/
def downloadConfigFile (env : Env) (uri workDir : String) :
    StateM World (String × Option GoError) := do
  let outputFile := env.Join workDir "config.toml"
  match ← osCreate env outputFile with
  | some err =>
    return ("", some (.wrap ("failed to create the " ++ outputFile ++ " file: ") err))
  | none =>
    let result ← (do
      match ← httpGet env uri with
      | .error err =>
        return ("", some (.wrap ("failed to get response from " ++ uri ++ ": ") err))
      | .ok resp =>
        let result ← (do
          if resp.StatusCode != StatusOK then
            return ("", some (.errorf ("invalid response code from " ++ uri ++ ": expected "
              ++ fmtD StatusOK ++ ", got " ++ fmtD resp.StatusCode)))
          if let some err ← ioCopy env outputFile resp.Body then
            return ("", some (.wrap "cannot copy content of downloaded file into output: " err))
          return (outputFile, none))
        closeBody uri
        return result)
    closeFile outputFile
    return result

/-- Whether an event writes to some file. -/
def Event.isWrite : Event → Bool
  | .Write _ _ => true
  | _ => false

/-- A world with one earlier download in the working directory. -/
def sampleWorld : World where
  files := fun p => if p = "work/config.toml" then some "genesis_url = 1" else none
  trace := []

/-- Library behaviour in which every file can be created and the server
answers every request with the status `code` and a body. -/
def envStatus (code : Int) : Env where
  Join := fun dir name => dir ++ "/" ++ name
  createErr := fun _ => none
  get := fun _ => .ok { StatusCode := code, Body := "not found" }
  copyErr := fun _ => none

/-- Library behaviour in which every file can be created and every request
fails in transport. -/
def envTransportError : Env where
  Join := fun dir name => dir ++ "/" ++ name
  createErr := fun _ => none
  get := fun _ => .error (.errorf "dial tcp: connection refused")
  copyErr := fun _ => none

/-- Library behaviour in which no file can be created, with a server that
would answer 200. -/
def envCreateFails : Env where
  Join := fun dir name => dir ++ "/" ++ name
  createErr := fun path => some (.errorf ("open " ++ path ++ ": permission denied"))
  get := fun _ => .ok { StatusCode := 200, Body := "genesis_url = 2" }
  copyErr := fun _ => none

/-! ## The required fields of a configuration -/

/-- The six fields `Validate` requires to be non-empty. -/
inductive RequiredField where
  | GenesisURL | ArtifactsRepository | DataNodesREST | RPCPeers | Seeds | BootstrapPeers
  deriving DecidableEq, Repr

/-- The emptiness test `Validate` applies to a required field. -/
def RequiredField.isEmpty (n : Network) : RequiredField → Bool
  | .GenesisURL => len n.GenesisURL == 0
  | .ArtifactsRepository => len n.ArtifactsRepository == 0
  | .DataNodesREST => n.DataNodesREST.length == 0
  | .RPCPeers => n.RPCPeers.length == 0
  | .Seeds => n.Seeds.length == 0
  | .BootstrapPeers => n.BootstrapPeers.length == 0

/-- The error `Validate` returns where the test of a required field fails. -/
def RequiredField.error : RequiredField → GoError
  | .GenesisURL => .errorf "no genesis url"
  | .ArtifactsRepository => .errorf "empty artifacts repository"
  | .DataNodesREST => .errorf "no data nodes rest endpoints"
  | .RPCPeers => .errorf "no rpc peers"
  | .Seeds => .errorf "no seeds"
  | .BootstrapPeers => .errorf "no bootstrap peers"

/-- The words by which the error of a required field describes it. -/
def RequiredField.words : RequiredField → String
  | .GenesisURL => "genesis url"
  | .ArtifactsRepository => "artifacts repository"
  | .DataNodesREST => "data nodes rest endpoints"
  | .RPCPeers => "rpc peers"
  | .Seeds => "seeds"
  | .BootstrapPeers => "bootstrap peers"

/-- The key of a required field in the configuration document (its `toml` tag). -/
def RequiredField.tomlKey : RequiredField → String
  | .GenesisURL => "genesis_url"
  | .ArtifactsRepository => "artifacts_repository"
  | .DataNodesREST => "data_nodes_rest"
  | .RPCPeers => "rpc_peers"
  | .Seeds => "seeds"
  | .BootstrapPeers => "bootstrap_peers"

/-- Fail-fast validation along a given order of the required fields: the
error of the first field of `order` that is empty, `none` when none is. -/
def firstEmptyError (order : List RequiredField) (n : Network) : Option GoError :=
  (order.find? (RequiredField.isEmpty n)).map RequiredField.error

/-- The order of the checks as the specification words it. -/
def specOrder : List RequiredField :=
  [.GenesisURL, .ArtifactsRepository, .DataNodesREST, .RPCPeers, .Seeds, .BootstrapPeers]

/-- The order of the checks in the body of `Validate`. -/
def sourceOrder : List RequiredField :=
  [.DataNodesREST, .BootstrapPeers, .RPCPeers, .Seeds, .GenesisURL, .ArtifactsRepository]

/-- A configuration whose genesis URL and data node endpoints are both empty. -/
def noGenesisNoDataNodes : Network where
  ArtifactsRepository := "vegaprotocol/vega"
  GenesisURL := ""
  DataNodesREST := []
  RPCPeers := [⟨"https://api1.vega.community", "api1.vega.community:26657"⟩]
  Seeds := ["b0db58f5651c85385f588bd5238b42bedbe57073@13.125.55.240:26656"]
  BootstrapPeers := [⟨"https://api0.vega.community", "/dns/api0.vega.community/tcp/4001"⟩]

/-- A configuration in which only the genesis URL is empty. -/
def onlyGenesisEmpty : Network where
  ArtifactsRepository := "vegaprotocol/vega"
  GenesisURL := ""
  DataNodesREST := ["https://api0.vega.community"]
  RPCPeers := [⟨"https://api1.vega.community", "api1.vega.community:26657"⟩]
  Seeds := ["b0db58f5651c85385f588bd5238b42bedbe57073@13.125.55.240:26656"]
  BootstrapPeers := [⟨"https://api0.vega.community", "/dns/api0.vega.community/tcp/4001"⟩]

/-- A configuration in which only the seeds are empty. -/
def onlySeedsEmpty : Network where
  ArtifactsRepository := "vegaprotocol/vega"
  GenesisURL := "https://raw.githubusercontent.com/vegaprotocol/networks/master/mainnet1/genesis.json"
  DataNodesREST := ["https://api0.vega.community"]
  RPCPeers := [⟨"https://api1.vega.community", "api1.vega.community:26657"⟩]
  Seeds := []
  BootstrapPeers := [⟨"https://api0.vega.community", "/dns/api0.vega.community/tcp/4001"⟩]

/-- A configuration of the right shape whose every element is blank. -/
def blankElements : Network where
  ArtifactsRepository := "r"
  GenesisURL := "g"
  DataNodesREST := [""]
  RPCPeers := [⟨"", ""⟩]
  Seeds := ["", ""]
  BootstrapPeers := [⟨"", ""⟩]

/-- The configuration `n` with every element of its four sequences blanked,
the lengths kept. -/
def Network.blanked (n : Network) : Network :=
  { n with
    DataNodesREST := n.DataNodesREST.map (fun _ => "")
    RPCPeers := n.RPCPeers.map (fun _ => ⟨"", ""⟩)
    Seeds := n.Seeds.map (fun _ => "")
    BootstrapPeers := n.BootstrapPeers.map (fun _ => ⟨"", ""⟩) }

/-! ## Lemmas on strings and lengths -/

theorem utf8ByteSize_go_eq_zero (cs : List Char) :
    String.utf8ByteSize.go cs = 0 ↔ cs = [] := by
  cases cs with
  | nil => simp [String.utf8ByteSize.go]
  | cons c cs =>
    have hc := Char.utf8Size_pos c
    simp [String.utf8ByteSize.go]
    omega

theorem len_eq_zero_iff (s : String) : len s = 0 ↔ s = "" := by
  cases s with
  | mk cs =>
    show String.utf8ByteSize.go cs = 0 ↔ _
    rw [utf8ByteSize_go_eq_zero]
    constructor
    · intro h; subst h; rfl
    · intro h; exact congrArg String.data h

theorem Validate_eq_none_iff (n : Network) :
    n.Validate = none ↔
      n.GenesisURL ≠ "" ∧ n.ArtifactsRepository ≠ "" ∧
      1 ≤ n.DataNodesREST.length ∧ 1 ≤ n.RPCPeers.length ∧
      1 ≤ n.Seeds.length ∧ 1 ≤ n.BootstrapPeers.length := by
  unfold Network.Validate
  simp only [beq_iff_eq, len_eq_zero_iff, List.length_eq_zero, Nat.one_le_iff_ne_zero, ne_eq]
  split_ifs <;> simp_all

theorem Validate_congr_lengths (n m : Network)
    (hg : len m.GenesisURL = len n.GenesisURL)
    (ha : len m.ArtifactsRepository = len n.ArtifactsRepository)
    (hd : m.DataNodesREST.length = n.DataNodesREST.length)
    (hr : m.RPCPeers.length = n.RPCPeers.length)
    (hs : m.Seeds.length = n.Seeds.length)
    (hb : m.BootstrapPeers.length = n.BootstrapPeers.length) :
    m.Validate = n.Validate := by
  unfold Network.Validate
  rw [hg, ha, hd, hr, hs, hb]

theorem containsChars_of_isPrefixOf (sub t : List Char) (h : sub.isPrefixOf t = true) :
    containsChars t sub = true := by
  cases t with
  | nil => cases sub <;> simp_all [containsChars]
  | cons c cs => simp [containsChars, h]

theorem containsChars_append_left (a t sub : List Char) (h : containsChars t sub = true) :
    containsChars (a ++ t) sub = true := by
  induction a with
  | nil => simpa using h
  | cons c cs ih => simp [containsChars, ih]

theorem stringsContains_append_right (a b : String) : stringsContains (a ++ b) b = true := by
  unfold stringsContains
  rw [String.data_append]
  exact containsChars_append_left _ _ _ (containsChars_of_isPrefixOf _ _ (by simp))

theorem stringsContains_append_mid (a b c : String) :
    stringsContains (a ++ b ++ c) b = true := by
  unfold stringsContains
  rw [String.data_append, String.data_append, List.append_assoc]
  exact containsChars_append_left _ _ _ (containsChars_of_isPrefixOf _ _ (by simp))

/-! ## Claims -/

/-- C1: `Validate` returns no error exactly when the two required strings are
non-empty and the four required sequences have at least one element, and
changing `BinaryVersionOverride` to any other value never changes the result. -/
theorem Validate_ok_iff_six_fields_nonempty (n : Network) (v : String) :
    (n.Validate = none ↔
      (n.GenesisURL ≠ "" ∧ n.ArtifactsRepository ≠ "" ∧
       1 ≤ n.DataNodesREST.length ∧ 1 ≤ n.RPCPeers.length ∧
       1 ≤ n.Seeds.length ∧ 1 ≤ n.BootstrapPeers.length)) ∧
    Network.Validate { n with BinaryVersionOverride := v } = n.Validate :=
  ⟨Validate_eq_none_iff n, rfl⟩

/-- C2: each of the eight recognized names and aliases is resolved without an
error to a configuration on which `Validate` returns no error. -/
theorem recognized_names_resolve_and_validate :
    ∀ name ∈ recognizedNames,
      ∃ cfg, networkConfigForEnvironmentName name = (some cfg, none) ∧ cfg.Validate = none := by
  intro name h
  simp only [recognizedNames, List.mem_cons, List.mem_singleton, List.not_mem_nil, or_false] at h
  rcases h with rfl | rfl | rfl | rfl | rfl | rfl | rfl | rfl
  · exact ⟨Mainnet, rfl, by decide⟩
  · exact ⟨MainnetMirror, rfl, by decide⟩
  · exact ⟨MainnetMirror, rfl, by decide⟩
  · exact ⟨ValidatorsTestnet, rfl, by decide⟩
  · exact ⟨ValidatorsTestnet, rfl, by decide⟩
  · exact ⟨Fairground, rfl, by decide⟩
  · exact ⟨Stagnet1, rfl, by decide⟩
  · exact ⟨Devnet1, rfl, by decide⟩

theorem recognized_names_resolve_and_validate_witness :
    "fairground" ∈ recognizedNames ∧
    ∃ cfg, networkConfigForEnvironmentName "fairground" = (some cfg, none) ∧
      cfg.Validate = none :=
  ⟨by decide, recognized_names_resolve_and_validate "fairground" (by decide)⟩

/-- C3 (as stated, refuted): with the genesis URL and the data node endpoints
both empty, `Validate` does not return the error of the first empty field in
the order genesis URL, artifacts repository, data nodes, RPC peers, seeds,
bootstrap peers: it returns the data-node error, not the genesis-URL error. -/
theorem Validate_not_in_spec_order :
    RequiredField.isEmpty noGenesisNoDataNodes .GenesisURL = true ∧
    firstEmptyError specOrder noGenesisNoDataNodes = some (.errorf "no genesis url") ∧
    noGenesisNoDataNodes.Validate = some (.errorf "no data nodes rest endpoints") ∧
    noGenesisNoDataNodes.Validate ≠ firstEmptyError specOrder noGenesisNoDataNodes := by
  decide

/-- C3 (amended): `Validate` checks the six required fields in the fixed order
data node endpoints, bootstrap peers, RPC peers, seeds, genesis URL, artifacts
repository, and returns the error of the first empty field in that order
(no error when none is empty). -/
theorem Validate_eq_first_empty_in_source_order (n : Network) :
    n.Validate = firstEmptyError sourceOrder n := by
  unfold Network.Validate firstEmptyError sourceOrder
  simp only [List.find?, RequiredField.isEmpty]
  cases n.DataNodesREST.length == 0 <;> cases n.BootstrapPeers.length == 0 <;>
    cases n.RPCPeers.length == 0 <;> cases n.Seeds.length == 0 <;>
    cases len n.GenesisURL == 0 <;> cases len n.ArtifactsRepository == 0 <;> rfl

/-- C4 (as stated, refuted): in a configuration where only the genesis URL is
empty, the message of the error `Validate` returns is "no genesis url", which
does not contain the document key "genesis_url". -/
theorem Validate_genesis_message_lacks_key :
    (sourceOrder.filter (RequiredField.isEmpty onlyGenesisEmpty) = [.GenesisURL]) ∧
    onlyGenesisEmpty.Validate.map GoError.Error = some "no genesis url" ∧
    stringsContains "no genesis url" (RequiredField.tomlKey .GenesisURL) = false := by
  decide

/-- C4 (amended): for every configuration in which exactly one required field
is empty, `Validate` returns the error of that field, and its message describes
the field in plain words ("seeds" for the seeds, "genesis url" with a blank for
the genesis URL, and so on), not by its document key. -/
theorem Validate_single_empty_field_named (n : Network) (f : RequiredField)
    (h : ∀ g, RequiredField.isEmpty n g = true ↔ g = f) :
    n.Validate = some f.error ∧ stringsContains f.error.Error f.words = true := by
  refine ⟨?_, by cases f <;> decide⟩
  have h1 := h .GenesisURL
  have h2 := h .ArtifactsRepository
  have h3 := h .DataNodesREST
  have h4 := h .RPCPeers
  have h5 := h .Seeds
  have h6 := h .BootstrapPeers
  cases f <;> simp [RequiredField.isEmpty] at h1 h2 h3 h4 h5 h6 <;>
    simp [Network.Validate, RequiredField.error, *]

theorem Validate_single_empty_field_named_witness :
    (onlySeedsEmpty.Validate = some (.errorf "no seeds") ∧
      stringsContains "no seeds" "seeds" = true) ∧
    (onlyGenesisEmpty.Validate = some (.errorf "no genesis url") ∧
      stringsContains "no genesis url" "genesis url" = true) :=
  ⟨Validate_single_empty_field_named onlySeedsEmpty .Seeds (by intro g; cases g <;> decide),
   Validate_single_empty_field_named onlyGenesisEmpty .GenesisURL
     (by intro g; cases g <;> decide)⟩

/-- C5: for every string that is not exactly one of the eight recognized names
and aliases, the lookup returns a nil configuration together with a non-nil
error. -/
theorem unrecognized_name_gives_nil_and_error (envName : String)
    (h : envName ∉ recognizedNames) :
    (networkConfigForEnvironmentName envName).1 = none ∧
    (networkConfigForEnvironmentName envName).2 ≠ none := by
  simp only [recognizedNames, List.mem_cons, List.mem_singleton, List.not_mem_nil, or_false,
    not_or] at h
  obtain ⟨h1, h2, h3, h4, h5, h6, h7, h8⟩ := h
  simp [networkConfigForEnvironmentName, NetworkNameMainnet, NetworkMainnetMirror,
    NetworkMainnetMirrorAlt, NetworkValidatorTestnet, NetworkValidatorsTestnet,
    NetworkNameFairground, NetworkNameStagnet1, NetworkNameDevnet1, *]

theorem unrecognized_name_gives_nil_and_error_witness :
    ("Mainnet" ∉ recognizedNames ∧ "" ∉ recognizedNames ∧ NetworkNameNebula ∉ recognizedNames) ∧
    ((networkConfigForEnvironmentName "Mainnet").1 = none ∧
      (networkConfigForEnvironmentName "Mainnet").2 ≠ none) ∧
    ((networkConfigForEnvironmentName "").1 = none ∧
      (networkConfigForEnvironmentName "").2 ≠ none) ∧
    ((networkConfigForEnvironmentName NetworkNameNebula).1 = none ∧
      (networkConfigForEnvironmentName NetworkNameNebula).2 ≠ none) :=
  ⟨by decide,
   unrecognized_name_gives_nil_and_error "Mainnet" (by decide),
   unrecognized_name_gives_nil_and_error "" (by decide),
   unrecognized_name_gives_nil_and_error NetworkNameNebula (by decide)⟩

/-- C6 (the code at the failing input): for the unrecognized name "nebula" the
message of the lookup error lists mainnet, fairground, stagnet1 and devnet1
only; it contains neither "mainnet-mirror" nor "validator-testnet". -/
theorem unknown_name_message_omits_two_names :
    networkConfigForEnvironmentName "nebula" = (none, some (.errorf
      "unknown network name: expected one of [mainnet, fairground, stagnet1, devnet1], nebula got")) ∧
    (networkConfigForEnvironmentName "nebula").2.all (fun e =>
      !stringsContains e.Error "mainnet-mirror" &&
      !stringsContains e.Error "validator-testnet" &&
      stringsContains e.Error "mainnet" &&
      stringsContains e.Error "fairground" &&
      stringsContains e.Error "stagnet1" &&
      stringsContains e.Error "devnet1") = true := by
  decide

/-- C7: the lookup maps each recognized name to its own static entry,
unchanged and with no error; the two names of an alias pair give the same
result; and the six entries are pairwise distinct. -/
theorem lookup_returns_static_entries :
    networkConfigForEnvironmentName "mainnet" = (some Mainnet, none) ∧
    networkConfigForEnvironmentName "fairground" = (some Fairground, none) ∧
    networkConfigForEnvironmentName "stagnet1" = (some Stagnet1, none) ∧
    networkConfigForEnvironmentName "devnet1" = (some Devnet1, none) ∧
    networkConfigForEnvironmentName "mainnet-mirror" = (some MainnetMirror, none) ∧
    networkConfigForEnvironmentName "validator-testnet" = (some ValidatorsTestnet, none) ∧
    networkConfigForEnvironmentName "mirror" =
      networkConfigForEnvironmentName "mainnet-mirror" ∧
    networkConfigForEnvironmentName "validators-testnet" =
      networkConfigForEnvironmentName "validator-testnet" ∧
    [Mainnet, Fairground, Stagnet1, Devnet1, MainnetMirror, ValidatorsTestnet].Nodup := by
  refine ⟨rfl, rfl, rfl, rfl, rfl, rfl, rfl, rfl, by decide⟩

/-- C8: with the fetcher and the parser abstract, `NetworkConfigForGivenInput`
run from any world equals the three-way dispatch of the specification: lookup
on the name with the world untouched when the path is empty; fetch, then parse
of the fetched path, or the wrapped fetch error with no parse, when the path
begins with "http"; parse of the path itself otherwise. -/
theorem NetworkConfigForGivenInput_eq_resolveSpec {σ : Type}
    (download : String → String → StateM σ (String × Option GoError))
    (load : String → StateM σ (Option Network × Option GoError))
    (envName configPath workDir : String) (w : σ) :
    (NetworkConfigForGivenInput download load envName configPath workDir).run w =
      resolveSpec download load envName configPath workDir w := by
  unfold NetworkConfigForGivenInput resolveSpec
  by_cases h1 : configPath = ""
  · simp [h1, StateT.run, pure, StateT.pure]
  · by_cases h2 : stringsHasPrefix configPath "http" = true
    · simp only [h1, h2, beq_iff_eq, if_false, if_true, StateT.run, bind, StateT.bind]
      rcases hd : download configPath workDir w with ⟨⟨path, err⟩, w1⟩
      cases err <;> simp [hd, pure, StateT.pure, StateT.bind]
    · simp [h1, h2, StateT.run, bind, StateT.bind, pure, StateT.pure]

/-- C9: when the destination file can be created and the server answers with a
status other than 200, `downloadConfigFile` returns the empty path and an error
whose message contains both "200" and the status received, makes no write to
any file (it creates the file, sends the request and closes both), and leaves
the destination file empty. -/
theorem downloadConfigFile_unexpected_status (env : Env) (uri workDir : String) (w : World)
    (resp : Response)
    (hcreate : env.createErr (env.Join workDir "config.toml") = none)
    (hget : env.get uri = .ok resp)
    (hstatus : resp.StatusCode ≠ 200) :
    ∃ e w1, (downloadConfigFile env uri workDir).run w = (("", some e), w1) ∧
      stringsContains e.Error "200" = true ∧
      stringsContains e.Error (fmtD resp.StatusCode) = true ∧
      w1.trace = w.trace ++
        [.Create (env.Join workDir "config.toml"), .Get uri, .CloseBody uri,
         .CloseFile (env.Join workDir "config.toml")] ∧
      (w1.trace.drop w.trace.length).any Event.isWrite = false ∧
      w1.files (env.Join workDir "config.toml") = some "" := by
  simp [downloadConfigFile, StateT.run, bind, StateT.bind, osCreate, hcreate, httpGet, hget,
    closeBody, closeFile, pure, StateT.pure, hstatus, StatusOK]
  refine ⟨_, _, rfl, ?_, ?_, rfl, ?_, ?_⟩
  · have h200 : fmtD 200 = "200" := by decide
    simp only [GoError.Error, h200]
    rw [String.append_assoc _ ", got "]
    exact stringsContains_append_mid _ _ _
  · exact stringsContains_append_right _ _
  · intro x hx
    simp at hx
    rcases hx with rfl | rfl | rfl | rfl <;> rfl
  · simp

theorem downloadConfigFile_unexpected_status_witness :
    (∃ e w1, (downloadConfigFile (envStatus 404) "http://example.test/config.toml" "work").run
          sampleWorld = (("", some e), w1) ∧
        stringsContains e.Error "200" = true ∧
        stringsContains e.Error (fmtD 404) = true ∧
        w1.trace = sampleWorld.trace ++
          [.Create "work/config.toml", .Get "http://example.test/config.toml",
           .CloseBody "http://example.test/config.toml", .CloseFile "work/config.toml"] ∧
        (w1.trace.drop sampleWorld.trace.length).any Event.isWrite = false ∧
        w1.files "work/config.toml" = some "") ∧
    (∃ e w1, (downloadConfigFile (envStatus 201) "http://example.test/config.toml" "work").run
          sampleWorld = (("", some e), w1) ∧
        stringsContains e.Error "200" = true ∧
        stringsContains e.Error (fmtD 201) = true ∧
        w1.trace = sampleWorld.trace ++
          [.Create "work/config.toml", .Get "http://example.test/config.toml",
           .CloseBody "http://example.test/config.toml", .CloseFile "work/config.toml"] ∧
        (w1.trace.drop sampleWorld.trace.length).any Event.isWrite = false ∧
        w1.files "work/config.toml" = some "") ∧
    (∃ e w1, (downloadConfigFile (envStatus 204) "http://example.test/config.toml" "work").run
          sampleWorld = (("", some e), w1) ∧
        stringsContains e.Error "200" = true ∧
        stringsContains e.Error (fmtD 204) = true ∧
        w1.trace = sampleWorld.trace ++
          [.Create "work/config.toml", .Get "http://example.test/config.toml",
           .CloseBody "http://example.test/config.toml", .CloseFile "work/config.toml"] ∧
        (w1.trace.drop sampleWorld.trace.length).any Event.isWrite = false ∧
        w1.files "work/config.toml" = some "") :=
  ⟨downloadConfigFile_unexpected_status (envStatus 404) "http://example.test/config.toml"
     "work" sampleWorld ⟨404, "not found"⟩ rfl rfl (by decide),
   downloadConfigFile_unexpected_status (envStatus 201) "http://example.test/config.toml"
     "work" sampleWorld ⟨201, "not found"⟩ rfl rfl (by decide),
   downloadConfigFile_unexpected_status (envStatus 204) "http://example.test/config.toml"
     "work" sampleWorld ⟨204, "not found"⟩ rfl rfl (by decide)⟩

/-- C11: `downloadConfigFile` creates its destination file before it sends the
request. When the file can be created and the fetch fails, by a transport
error or by a status other than 200, the function returns an error, the file is
present and empty whatever it held before, and the first two interactions are
the creation and then the request. When the file cannot be created, the
function returns an error, no file changes and no request is sent. -/
theorem downloadConfigFile_truncates_before_get (env : Env) (uri workDir : String)
    (w : World) :
    (env.createErr (env.Join workDir "config.toml") = none →
      (∀ resp, env.get uri = .ok resp → resp.StatusCode ≠ 200) →
      ∃ e w1, (downloadConfigFile env uri workDir).run w = (("", some e), w1) ∧
        w1.files (env.Join workDir "config.toml") = some "" ∧
        (w1.trace.drop w.trace.length).take 2 =
          [.Create (env.Join workDir "config.toml"), .Get uri]) ∧
    (∀ err, env.createErr (env.Join workDir "config.toml") = some err →
      ∃ e w1, (downloadConfigFile env uri workDir).run w = (("", some e), w1) ∧
        w1.files = w.files ∧
        w1.trace = w.trace ++ [.Create (env.Join workDir "config.toml")] ∧
        ∀ u, Event.Get u ∉ w1.trace.drop w.trace.length) := by
  constructor
  · intro hcreate hfail
    cases hget : env.get uri with
    | error err =>
      simp [downloadConfigFile, StateT.run, bind, StateT.bind, osCreate, hcreate, httpGet, hget,
        closeFile, pure, StateT.pure]
      exact ⟨_, _, rfl, by simp, by simp⟩
    | ok resp =>
      have hstatus := hfail resp hget
      simp [downloadConfigFile, StateT.run, bind, StateT.bind, osCreate, hcreate, httpGet, hget,
        closeBody, closeFile, pure, StateT.pure, hstatus, StatusOK]
      exact ⟨_, _, rfl, by simp, by simp⟩
  · intro err hcreate
    simp [downloadConfigFile, StateT.run, bind, StateT.bind, osCreate, hcreate, pure,
      StateT.pure]
    exact ⟨_, _, rfl, rfl, rfl, by simp⟩

theorem downloadConfigFile_truncates_before_get_witness :
    sampleWorld.files "work/config.toml" = some "genesis_url = 1" ∧
    (∃ e w1, (downloadConfigFile envTransportError "http://example.test/config.toml" "work").run
        sampleWorld = (("", some e), w1) ∧
      w1.files "work/config.toml" = some "" ∧
      (w1.trace.drop sampleWorld.trace.length).take 2 =
        [.Create "work/config.toml", .Get "http://example.test/config.toml"]) ∧
    (∃ e w1, (downloadConfigFile (envStatus 404) "http://example.test/config.toml" "work").run
        sampleWorld = (("", some e), w1) ∧
      w1.files "work/config.toml" = some "" ∧
      (w1.trace.drop sampleWorld.trace.length).take 2 =
        [.Create "work/config.toml", .Get "http://example.test/config.toml"]) ∧
    (∃ e w1, (downloadConfigFile envCreateFails "http://example.test/config.toml" "work").run
        sampleWorld = (("", some e), w1) ∧
      w1.files = sampleWorld.files ∧
      w1.trace = sampleWorld.trace ++ [.Create "work/config.toml"] ∧
      ∀ u, Event.Get u ∉ w1.trace.drop sampleWorld.trace.length) :=
  ⟨by decide,
   (downloadConfigFile_truncates_before_get envTransportError
      "http://example.test/config.toml" "work" sampleWorld).1 rfl
      (by intro resp h; cases h),
   (downloadConfigFile_truncates_before_get (envStatus 404)
      "http://example.test/config.toml" "work" sampleWorld).1 rfl
      (by intro resp h; cases h; decide),
   (downloadConfigFile_truncates_before_get envCreateFails
      "http://example.test/config.toml" "work" sampleWorld).2 _ rfl⟩

/-- C10: `Validate` looks at lengths only. A configuration whose two required
strings are non-empty and whose four sequences are non-empty passes; it still
passes once every seed and data-node string is blanked and every peer has an
empty `CoreREST` and `Endpoint`; and so does any configuration with the same
six lengths. -/
theorem Validate_inspects_only_lengths (n : Network)
    (hg : n.GenesisURL ≠ "") (ha : n.ArtifactsRepository ≠ "")
    (hd : 1 ≤ n.DataNodesREST.length) (hr : 1 ≤ n.RPCPeers.length)
    (hs : 1 ≤ n.Seeds.length) (hb : 1 ≤ n.BootstrapPeers.length) :
    n.Validate = none ∧ n.blanked.Validate = none ∧
    ∀ m : Network,
      len m.GenesisURL = len n.GenesisURL →
      len m.ArtifactsRepository = len n.ArtifactsRepository →
      m.DataNodesREST.length = n.DataNodesREST.length →
      m.RPCPeers.length = n.RPCPeers.length →
      m.Seeds.length = n.Seeds.length →
      m.BootstrapPeers.length = n.BootstrapPeers.length →
      m.Validate = none := by
  have hn : n.Validate = none := (Validate_eq_none_iff n).mpr ⟨hg, ha, hd, hr, hs, hb⟩
  refine ⟨hn, ?_, ?_⟩
  · rw [Validate_congr_lengths n n.blanked rfl rfl] <;> first | exact hn | simp [Network.blanked]
  · intro m h1 h2 h3 h4 h5 h6
    rw [Validate_congr_lengths n m h1 h2 h3 h4 h5 h6]
    exact hn

theorem Validate_inspects_only_lengths_witness :
    blankElements.Validate = none ∧ blankElements.blanked.Validate = none ∧
    ∀ m : Network,
      len m.GenesisURL = len blankElements.GenesisURL →
      len m.ArtifactsRepository = len blankElements.ArtifactsRepository →
      m.DataNodesREST.length = blankElements.DataNodesREST.length →
      m.RPCPeers.length = blankElements.RPCPeers.length →
      m.Seeds.length = blankElements.Seeds.length →
      m.BootstrapPeers.length = blankElements.BootstrapPeers.length →
      m.Validate = none :=
  Validate_inspects_only_lengths blankElements (by decide) (by decide) (by decide) (by decide)
    (by decide) (by decide)

end config
